import Mathlib

/-!
Verification development for the `verify` package of
0xSero/bip-0137-signature-verification-go.

The Go sources under `src/verify` are shallowly embedded as pure Lean
functions.  Byte strings are `List Nat` (each element < 256 where it
matters), Go's `(bool, error)` return pairs are `Bool × Option GoError`,
and logging is made explicit: each entry point returns its result paired
with the list of log lines it would emit at the configured level, so that
the independence of the verification outcome from the logging
configuration is a provable statement rather than an artefact.

The heavy cryptographic collaborators (double-SHA-256 hashing, secp256k1
public-key recovery, address derivation, HASH160) live in external
libraries (`btcsuite/btcd`, `bitonicnl/verify-signed-message`) whose code
is not part of this repository; they enter the model as an explicit
`Crypto` record of pure oracle functions, and theorems quantify over all
oracles wherever a claim is about control flow rather than cryptography.
-/

/-- Go `error` values produced by the `verify` package and by the
collaborators it calls.  `wrap p e` models `fmt.Errorf(p ++ ": %w", e)`
(the inner error stays reachable through unwrapping), while
`wrapMsg t s` models `fmt.Errorf("%w: %v", t, reason)` where only the
first error `t` is wrapped and the reason is flattened to text `s`. -/
inductive GoError where
  | errEmptyAddress : GoError
  | errEmptyMessage : GoError
  | errEmptySignature : GoError
  | errVerificationTimeout : GoError
  | errInvalidSignature : GoError
  | errMalformedSignature (gotLen : Nat) : GoError
  | errRecoveryFailure : GoError
  | errUnsupportedAddressClass : GoError
  | ctxDeadlineExceeded : GoError
  | ctxCanceled : GoError
  | plain (msg : String) : GoError
  | wrap (prefixMsg : String) (inner : GoError) : GoError
  | wrapMsg (target : GoError) (reasonText : String) : GoError
deriving DecidableEq, BEq

/-- The `Error()` string of a modelled Go error (used where Go formats an
error with `%v`, which flattens it to text instead of wrapping it). -/
def GoError.text : GoError → String
  | .errEmptyAddress => "empty bitcoin address"
  | .errEmptyMessage => "empty message"
  | .errEmptySignature => "empty signature"
  | .errVerificationTimeout => "signature verification timed out"
  | .errInvalidSignature => "invalid signature"
  | .errMalformedSignature n => "wrong signature length: " ++ toString n
  | .errRecoveryFailure => "public key recovery failed"
  | .errUnsupportedAddressClass => "unsupported address class"
  | .ctxDeadlineExceeded => "context deadline exceeded"
  | .ctxCanceled => "context canceled"
  | .plain m => m
  | .wrap p inner => p ++ ": " ++ inner.text
  | .wrapMsg t reason => t.text ++ ": " ++ reason

/-- Model of Go's `errors.Is`: an error matches a target if it equals it
or if the target is reachable through the `%w` wrapping chain.  Note that
`wrapMsg` only exposes its first argument (`%v` does not wrap). -/
def GoError.unwrapsTo (e target : GoError) : Bool :=
  e == target ||
    match e with
    | .wrap _ inner => inner.unwrapsTo target
    | .wrapMsg t _ => t.unwrapsTo target
    | _ => false

/-- UTF-8 encoding of one Unicode scalar value, as Go's `[]byte(string)`
conversion produces for each rune. -/
def utf8EncodeChar (c : Char) : List Nat :=
  let n := c.toNat
  if n < 0x80 then [n]
  else if n < 0x800 then [0xC0 + n / 64, 0x80 + n % 64]
  else if n < 0x10000 then
    [0xE0 + n / 4096, 0x80 + (n / 64) % 64, 0x80 + n % 64]
  else
    [0xF0 + n / 262144, 0x80 + (n / 4096) % 64, 0x80 + (n / 64) % 64,
     0x80 + n % 64]

/-- The byte sequence of a Go string, i.e. `[]byte(s)`: the UTF-8 bytes
of its characters. -/
def stringToBytes (s : String) : List Nat :=
  (s.data.map utf8EncodeChar).flatten

/-- Value of one character of the standard (non-URL-safe) base64
alphabet, as used by Go's `encoding/base64` `StdEncoding`. -/
def base64Val (c : Char) : Option Nat :=
  if 'A' ≤ c ∧ c ≤ 'Z' then some (c.toNat - 65)
  else if 'a' ≤ c ∧ c ≤ 'z' then some (c.toNat - 71)
  else if '0' ≤ c ∧ c ≤ '9' then some (c.toNat + 4)
  else if c = '+' then some 62
  else if c = '/' then some 63
  else none

/-- Decode a run of base64 quads.  Padding (`=`) is accepted only in the
final quad, in the shapes `xx==` (one byte) and `xxx=` (two bytes);
unused trailing bits are ignored, as Go's non-strict `StdEncoding`
ignores them. -/
def base64DecodeQuads : List Char → Option (List Nat)
  | [] => some []
  | a :: b :: c :: d :: rest =>
    match base64Val a, base64Val b with
    | some va, some vb =>
      if c = '=' then
        if d = '=' ∧ rest = [] then some [va * 4 + vb / 16] else none
      else
        match base64Val c with
        | some vc =>
          if d = '=' then
            if rest = [] then
              some [va * 4 + vb / 16, (vb % 16) * 16 + vc / 4]
            else none
          else
            match base64Val d with
            | some vd =>
              match base64DecodeQuads rest with
              | some tail =>
                some ((va * 4 + vb / 16) :: ((vb % 16) * 16 + vc / 4) ::
                      ((vc % 4) * 64 + vd) :: tail)
              | none => none
            | none => none
        | none => none
    | _, _ => none
  | _ => none

/-- Go's `base64.StdEncoding.DecodeString`: newline characters are
ignored, the remaining text must consist of well-formed quads with
correct trailing padding, and the result is the decoded byte string. -/
def base64Decode (s : String) : Option (List Nat) :=
  base64DecodeQuads (s.data.filter fun c => c ≠ '\r' ∧ c ≠ '\n')

/-- Semantic fields decoded from a signature's header byte
(src/verify/signature.go lines 95-114 and the identical block of
src/verify/pubkey.go). -/
structure HeaderInfo where
  recID : Nat
  isCompressed : Bool
  addrType : String
deriving DecidableEq

/-- Embedding of the header-byte classification switch of
`VerifyBip137SignatureWithParams` (src/verify/signature.go lines
95-114): recovery id is `headerByte & 0x03`, and the 27-30 / 31-34 /
35-38 / 39-42 ranges pick address type and compression flag, with the
`default` branch keeping the initial values `false` / `"Unknown"`. -/
def classifyHeader (headerByte : Nat) : HeaderInfo :=
  let recID := headerByte &&& 0x03
  if 27 ≤ headerByte ∧ headerByte ≤ 30 then
    ⟨recID, false, "P2PKH (uncompressed)"⟩
  else if 31 ≤ headerByte ∧ headerByte ≤ 34 then
    ⟨recID, true, "P2PKH (compressed)"⟩
  else if 35 ≤ headerByte ∧ headerByte ≤ 38 then
    ⟨recID, true, "P2SH-P2WPKH (SegWit over P2SH)"⟩
  else if 39 ≤ headerByte ∧ headerByte ≤ 42 then
    ⟨recID, true, "P2WPKH (native SegWit)"⟩
  else
    ⟨recID, false, "Unknown"⟩

/-- Embedding of `formatBitcoinMessage` (src/verify/pubkey.go lines
187-204).  The source's body consists of comments describing the
intended varint-length-prefixed double-hashed encoding and then executes
only `return []byte(message)`; the embedding therefore returns the raw
UTF-8 bytes of the message, exactly as the code does. -/
def formatBitcoinMessage (message : String) : List Nat :=
  stringToBytes message

/-- Network parameters as consumed from `btcsuite/btcd/chaincfg.Params`:
the fields the `verify` package reads (name, P2PKH prefix byte, P2SH
prefix byte, bech32 human-readable part). -/
structure ChainParams where
  name : String
  pubKeyHashAddrID : Nat
  scriptHashAddrID : Nat
  bech32HRPSegwit : String
deriving DecidableEq

/-- `chaincfg.MainNetParams`, the default network of
`VerifyBip137Signature` (and the spec's §6 convenience default). -/
def mainnetParams : ChainParams :=
  ⟨"mainnet", 0x00, 0x05, "bc"⟩

/-- A secp256k1 public key as the `verify` package consumes it
(`*btcec.PublicKey`): identified by its two serialized forms. -/
structure PublicKey where
  compressedSer : List Nat
  uncompressedSer : List Nat
deriving DecidableEq, BEq

/-- The `SignedMessage` input record (src/verify/signature.go lines
24-33, field-for-field identical to the external verifier's). -/
structure SignedMessage where
  address : String
  message : String
  signature : String
deriving DecidableEq

/-- The pure cryptographic collaborators that live outside this
repository: canonical message hashing (MessageCanonicalizer),
public-key recovery (SignatureRecoverer), address derivation
(AddressDeriver), `btcutil.Hash160` and
`btcutil.NewAddressPubKeyHash(...).EncodeAddress()`.  Theorems about
control flow quantify over every such record. -/
structure Crypto where
  hashMessage : String → List Nat
  recover : List Nat → Nat → List Nat → List Nat → Option PublicKey
  deriveAddress : PublicKey → String → Bool → ChainParams → Except GoError String
  hash160 : List Nat → List Nat
  newAddressPubKeyHash : List Nat → ChainParams → Except GoError String

def LogLevelNone : Nat := 0

def LogLevelError : Nat := 1

def LogLevelInfo : Nat := 2

def LogLevelDebug : Nat := 3

def LogLevelTrace : Nat := 4

/-- One leveled log statement (src/verify/logger.go): the line is
emitted iff the configured level is at least the statement's level. -/
def logAt (threshold lvl : Nat) (line : String) : List String :=
  if threshold ≤ lvl then [line] else []

/-- Modelled from the spec: the AddressDeriver contract (§4.4) of the
external verifier, whose code is not under src/.  Derivation fails with
`UnsupportedAddressClass` when the classified address class is
`Unknown`; otherwise the class-specific derivation (an oracle here)
runs. -/
def deriveAddressChecked (co : Crypto) (pk : PublicKey) (addrType : String)
    (compressed : Bool) (params : ChainParams) : Except GoError String :=
  if addrType = "Unknown" then .error .errUnsupportedAddressClass
  else co.deriveAddress pk addrType compressed params

/-- Modelled from the spec: `verifier.VerifyWithChain` of
`bitonicnl/verify-signed-message`, the core verifier called by
src/verify/signature.go line 131, is not under src/.  Per §4.1-§4.5 it
decodes the base64 signature, fails with `EmptySignature` on a
zero-length payload and `MalformedSignature` on any length other than
65, classifies the header byte, canonicalizes and double-hashes the
message, recovers the signing key from (hash, recovery id, R, S), fails
with `RecoveryFailure` when no key is recoverable, derives the address
for the classified class, and returns whether it equals the claimed
address. -/
def verifyWithChain (co : Crypto) (sm : SignedMessage)
    (params : ChainParams) : Except GoError Bool :=
  match base64Decode sm.signature with
  | none => .error (.plain "illegal base64 data")
  | some sigBytes =>
    if sigBytes.length = 0 then .error .errEmptySignature
    else if sigBytes.length ≠ 65 then
      .error (.errMalformedSignature sigBytes.length)
    else
      let info := classifyHeader (sigBytes.headD 0)
      let hash := co.hashMessage sm.message
      match co.recover hash info.recID ((sigBytes.drop 1).take 32)
          (sigBytes.drop 33) with
      | none => .error .errRecoveryFailure
      | some pk =>
        match deriveAddressChecked co pk info.addrType info.isCompressed
            params with
        | .error e => .error e
        | .ok derived => .ok (derived == sm.address)

/-- Result component of `VerifyBip137SignatureWithParams`
(src/verify/signature.go lines 54-144): empty-input checks in the order
address, message, signature; base64 decoding (wrapping the decoder's
error); header-byte classification (consumed only by logging); then the
external verifier, whose error is wrapped as
`"signature verification error: %w"` and whose boolean is returned with
a nil error. -/
def verifyWithParamsCore (co : Crypto)
    (address message signatureBase64 : String) (params : ChainParams) :
    Bool × Option GoError :=
  if address = "" then (false, some .errEmptyAddress)
  else if message = "" then (false, some .errEmptyMessage)
  else if signatureBase64 = "" then (false, some .errEmptySignature)
  else
    match base64Decode signatureBase64 with
    | none =>
      (false, some (.wrap "invalid base64 signature"
        (.plain "illegal base64 data")))
    | some _sigBytes =>
      match verifyWithChain co ⟨address, message, signatureBase64⟩ params with
      | .error e => (false, some (.wrap "signature verification error" e))
      | .ok valid => (valid, none)

/-- Log lines of `VerifyBip137SignatureWithParams` at a given level;
the classification block of lines 90-120 exists only to feed these. -/
def verifyWithParamsLogs (lvl : Nat)
    (address message signatureBase64 : String) (params : ChainParams) :
    List String :=
  logAt LogLevelDebug lvl
      ("Verifying signature with network parameters: " ++ params.name) ++
    (if LogLevelTrace ≤ lvl then
      ["Detailed verification parameters:", "Network: " ++ params.name]
     else []) ++
    (if address = "" then logAt LogLevelError lvl "Empty address provided"
     else if message = "" then logAt LogLevelError lvl "Empty message provided"
     else if signatureBase64 = "" then
       logAt LogLevelError lvl "Empty signature provided"
     else
       match base64Decode signatureBase64 with
       | none => logAt LogLevelError lvl "Failed to decode base64 signature"
       | some sigBytes =>
         (if 0 < sigBytes.length then
           logAt LogLevelDebug lvl
             ("Address type: " ++ (classifyHeader (sigBytes.headD 0)).addrType)
          else []) ++
           logAt LogLevelDebug lvl "Calling BitonicNL verifier to verify signature")

/-- `VerifyBip137SignatureWithParams` (src/verify/signature.go lines
54-144), returning the Go `(bool, error)` pair together with the log
lines emitted at the configured level. -/
def VerifyBip137SignatureWithParams (co : Crypto) (lvl : Nat)
    (address message signatureBase64 : String) (params : ChainParams) :
    (Bool × Option GoError) × List String :=
  (verifyWithParamsCore co address message signatureBase64 params,
   verifyWithParamsLogs lvl address message signatureBase64 params)

/-- `VerifyBip137Signature` (src/verify/signature.go lines 38-50):
the mainnet-default entry point, delegating to
`VerifyBip137SignatureWithParams` with `chaincfg.MainNetParams`. -/
def VerifyBip137Signature (co : Crypto) (lvl : Nat)
    (address message signatureBase64 : String) :
    (Bool × Option GoError) × List String :=
  let pre := logAt LogLevelInfo lvl "Starting BIP-0137 signature verification" ++
    logAt LogLevelDebug lvl ("Address: " ++ address) ++
    logAt LogLevelDebug lvl ("Message: " ++ message) ++
    logAt LogLevelDebug lvl ("Signature (Base64): " ++ signatureBase64)
  let r := VerifyBip137SignatureWithParams co lvl address message
    signatureBase64 mainnetParams
  (r.1, pre ++ r.2)

/-- Result component of `VerifyBip137SignatureWithPubKeyAndParams`
(src/verify/pubkey.go lines 49-134): nil-key check, then empty message
and signature checks, base64 decoding, header classification (logging
only), and then — with no direct key comparison — derivation of a P2PKH
address from the supplied key's compressed serialization
(`btcutil.Hash160` + `NewAddressPubKeyHash`) and delegation to
address-based verification with that derived address. -/
def verifyWithPubKeyAndParamsCore (co : Crypto) (pubKey : Option PublicKey)
    (message signatureBase64 : String) (params : ChainParams) :
    Bool × Option GoError :=
  match pubKey with
  | none => (false, some (.plain "empty public key"))
  | some pk =>
    if message = "" then (false, some .errEmptyMessage)
    else if signatureBase64 = "" then (false, some .errEmptySignature)
    else
      match base64Decode signatureBase64 with
      | none =>
        (false, some (.wrap "invalid base64 signature"
          (.plain "illegal base64 data")))
      | some _sigBytes =>
        match co.newAddressPubKeyHash (co.hash160 pk.compressedSer) params with
        | .error e =>
          (false, some (.wrap "failed to derive address from public key" e))
        | .ok derivedAddress =>
          verifyWithParamsCore co derivedAddress message signatureBase64 params

/-- Log lines of `VerifyBip137SignatureWithPubKeyAndParams`. -/
def verifyWithPubKeyAndParamsLogs (lvl : Nat) (pubKey : Option PublicKey)
    (message signatureBase64 : String) (params : ChainParams) :
    List String :=
  logAt LogLevelDebug lvl
      ("Verifying signature with network parameters: " ++ params.name) ++
    (if LogLevelTrace ≤ lvl then ["Detailed verification parameters:"]
     else []) ++
    match pubKey with
    | none => logAt LogLevelError lvl "Empty public key provided"
    | some _pk =>
      if message = "" then logAt LogLevelError lvl "Empty message provided"
      else if signatureBase64 = "" then
        logAt LogLevelError lvl "Empty signature provided"
      else
        match base64Decode signatureBase64 with
        | none => logAt LogLevelError lvl "Failed to decode base64 signature"
        | some sigBytes =>
          if 0 < sigBytes.length then
            logAt LogLevelDebug lvl
              ("Address type: " ++
                (classifyHeader (sigBytes.headD 0)).addrType)
          else []

/-- `VerifyBip137SignatureWithPubKeyAndParams` (src/verify/pubkey.go
lines 49-134), result paired with emitted log lines. -/
def VerifyBip137SignatureWithPubKeyAndParams (co : Crypto) (lvl : Nat)
    (pubKey : Option PublicKey) (message signatureBase64 : String)
    (params : ChainParams) : (Bool × Option GoError) × List String :=
  (verifyWithPubKeyAndParamsCore co pubKey message signatureBase64 params,
   verifyWithPubKeyAndParamsLogs lvl pubKey message signatureBase64 params ++
     verifyWithParamsLogs lvl "(derived)" message signatureBase64 params)

/-- Modelled from the spec: the fallback leg of the enhanced public-key
verification (§4.5 VerifyByPublicKey, Glossary "Fallback verification").
The definition of `EnhancedVerifyBip137SignatureWithPubKey` is called
from src/verify/pubkey.go line 44 and from the example programs but is
not under src/.  The fallback derives a best-guess (compressed P2PKH)
address from the supplied key and re-invokes address-based verification
with it, under the default mainnet parameters. -/
def enhancedFallbackCore (co : Crypto) (pk : PublicKey)
    (message signatureBase64 : String) : Bool × Option GoError :=
  match co.newAddressPubKeyHash (co.hash160 pk.compressedSer)
      mainnetParams with
  | .error e =>
    (false, some (.wrap "failed to derive address from public key" e))
  | .ok derived =>
    verifyWithParamsCore co derived message signatureBase64 mainnetParams

/-- Modelled from the spec: result component of
`EnhancedVerifyBip137SignatureWithPubKey`, whose definition is not under
src/ (only its callers are).  Per §4.5 VerifyByPublicKey: validate,
decode, classify; recover the signing key and compare it with the
supplied key directly, in the serialized form chosen by the
classification's `compressed` flag; when classification is ambiguous
(`addressClass = Unknown`) the direct comparison is inconclusive and
the single fallback (`enhancedFallbackCore`) decides the call; a
cryptographic recovery failure is fallback-ineligible (§9). -/
def enhancedVerifyCore (co : Crypto) (pk : PublicKey)
    (message signatureBase64 : String) : Bool × Option GoError :=
  if message = "" then (false, some .errEmptyMessage)
  else if signatureBase64 = "" then (false, some .errEmptySignature)
  else
    match base64Decode signatureBase64 with
    | none =>
      (false, some (.wrap "invalid base64 signature"
        (.plain "illegal base64 data")))
    | some sigBytes =>
      if sigBytes.length = 0 then (false, some .errEmptySignature)
      else if sigBytes.length ≠ 65 then
        (false, some (.errMalformedSignature sigBytes.length))
      else
        let info := classifyHeader (sigBytes.headD 0)
        if info.addrType = "Unknown" then
          enhancedFallbackCore co pk message signatureBase64
        else
          match co.recover (co.hashMessage message) info.recID
              ((sigBytes.drop 1).take 32) (sigBytes.drop 33) with
          | none => (false, some .errRecoveryFailure)
          | some recovered =>
            let recSer := if info.isCompressed then recovered.compressedSer
              else recovered.uncompressedSer
            let supSer := if info.isCompressed then pk.compressedSer
              else pk.uncompressedSer
            (recSer == supSer, none)

/-- Modelled from the spec:
`EnhancedVerifyBip137SignatureWithPubKey` with its (level-gated) log
output. -/
def EnhancedVerifyBip137SignatureWithPubKey (co : Crypto) (lvl : Nat)
    (pk : PublicKey) (message signatureBase64 : String) :
    (Bool × Option GoError) × List String :=
  (enhancedVerifyCore co pk message signatureBase64,
   logAt LogLevelInfo lvl "Starting enhanced BIP-0137 verification")

/-- Result component of `VerifyBip137SignatureWithPubKey`
(src/verify/pubkey.go lines 26-45): a nil key is rejected with the
plain error `"empty public key"` before anything else; otherwise the
call delegates to the enhanced implementation with fallback. -/
def verifyWithPubKeyCore (co : Crypto) (pubKey : Option PublicKey)
    (message signatureBase64 : String) : Bool × Option GoError :=
  match pubKey with
  | none => (false, some (.plain "empty public key"))
  | some pk => enhancedVerifyCore co pk message signatureBase64

/-- `VerifyBip137SignatureWithPubKey` (src/verify/pubkey.go lines
26-45), result paired with emitted log lines. -/
def VerifyBip137SignatureWithPubKey (co : Crypto) (lvl : Nat)
    (pubKey : Option PublicKey) (message signatureBase64 : String) :
    (Bool × Option GoError) × List String :=
  (verifyWithPubKeyCore co pubKey message signatureBase64,
   logAt LogLevelInfo lvl
       "Starting BIP-0137 signature verification with public key" ++
     logAt LogLevelDebug lvl ("Message: " ++ message) ++
     match pubKey with
     | none => logAt LogLevelError lvl "Empty public key provided"
     | some _pk => logAt LogLevelDebug lvl "Public Key (compressed)")

/-- Which side of the `select` in `VerifyBip137SignatureWithContext`
fires first: the context's done channel or the verification
goroutine's result channel. -/
inductive RaceWinner where
  | ctxDone : RaceWinner
  | verifyDone : RaceWinner
deriving DecidableEq

/-- Result component of `VerifyBip137SignatureWithContext`
(src/verify/signature.go lines 148-201).  The race between the
context's signal and the verification goroutine is resolved by the
`winner` parameter; `ctxErr` is the value of `ctx.Err()` when the
context fired (`context.DeadlineExceeded` or `context.Canceled`).
When the context wins, the code returns
`fmt.Errorf("%w: %v", ErrVerificationTimeout, ctxErr)` — always the
timeout sentinel, with the context's reason flattened to text.  When
the goroutine wins, a non-nil error from the inner `verifier.Verify`
(mainnet) is wrapped as `"signature verification error: %w"`, and a nil
error yields the inner boolean untouched. -/
def verifyWithContextCore (co : Crypto) (winner : RaceWinner)
    (ctxErr : GoError) (msg : SignedMessage) : Bool × Option GoError :=
  match winner with
  | .ctxDone =>
    (false, some (.wrapMsg .errVerificationTimeout ctxErr.text))
  | .verifyDone =>
    match verifyWithChain co msg mainnetParams with
    | .error e => (false, some (.wrap "signature verification error" e))
    | .ok valid => (valid, none)

/-- `VerifyBip137SignatureWithContext` (src/verify/signature.go lines
148-201), result paired with emitted log lines. -/
def VerifyBip137SignatureWithContext (co : Crypto) (lvl : Nat)
    (winner : RaceWinner) (ctxErr : GoError) (msg : SignedMessage) :
    (Bool × Option GoError) × List String :=
  (verifyWithContextCore co winner ctxErr msg,
   logAt LogLevelInfo lvl "Starting context-based signature verification" ++
     match winner with
     | .ctxDone =>
       logAt LogLevelError lvl
         ("Context cancelled or timed out: " ++ ctxErr.text)
     | .verifyDone => logAt LogLevelDebug lvl "Starting verification goroutine")

/-- A trivial collaborator record used to instantiate theorems at
concrete inputs: recovery always fails, derivations return fixed
addresses. -/
def trivialCrypto : Crypto where
  hashMessage := fun _ => List.replicate 32 0
  recover := fun _ _ _ _ => none
  deriveAddress := fun _ _ _ _ => .ok "derived"
  hash160 := fun _ => List.replicate 20 0
  newAddressPubKeyHash := fun _ _ => .ok "derivedAddr"

/-- A fixed public key for concrete instantiations. -/
def pkA : PublicKey :=
  ⟨2 :: List.replicate 32 7, 4 :: List.replicate 64 7⟩

/-- A collaborator record whose recovery always returns `pkA` (so
direct key comparison against `pkA` succeeds) while the two
address-derivation collaborators return distinct fixed addresses. -/
def directHitCrypto : Crypto where
  hashMessage := fun _ => List.replicate 32 0
  recover := fun _ _ _ _ => some pkA
  deriveAddress := fun _ _ _ _ => .ok "LIB-DERIVED"
  hash160 := fun _ => List.replicate 20 0
  newAddressPubKeyHash := fun _ _ => .ok "SUPPLIED-DERIVED"

/-- Base64 of the 65-byte payload `0x1f` followed by 64 zero bytes:
header byte 31, i.e. compressed-P2PKH class with recovery id 3. -/
def sig65 : String :=
  "HwAAAAAAAAAAAAAAAAAAAAAAAAAAAAAAAAAAAAAAAAAAAAAAAAAAAAAAAAAAAAAAAAAAAAAAAAAAAAAAAAAAAAA="

/-- Claim C1: the claim states that `formatBitcoinMessage` returns the
32-byte double-SHA-256 of the compact-size-length-prefixed prefix and
message bytes, and in particular never the raw message bytes.  The code
does the opposite: for every message it returns exactly the raw UTF-8
bytes of the message, unhashed — at `"Hello"` the output is the five
bytes `[72, 101, 108, 108, 111]`, not a 32-byte digest. -/
theorem formatBitcoinMessage_returns_raw_bytes :
    (∀ m : String, formatBitcoinMessage m = stringToBytes m) ∧
      formatBitcoinMessage "Hello" = [72, 101, 108, 108, 111] ∧
      (formatBitcoinMessage "Hello").length ≠ 32 :=
  ⟨fun _ => rfl, by decide, by decide⟩

set_option maxRecDepth 8192 in
/-- Claim C5: the header-byte classification maps 27-30 to uncompressed
P2PKH, 31-34 to compressed P2PKH, 35-38 to P2SH-P2WPKH and 39-42 to
P2WPKH (compressed for the three latter ranges), classifies every other
byte as `Unknown` without failing (the classifier is total), and always
computes recovery id `headerByte & 0x03 = headerByte % 4`. -/
theorem classifyHeader_spec :
    ∀ h : Fin 256,
      (27 ≤ h.val ∧ h.val ≤ 30 →
        (classifyHeader h.val).addrType = "P2PKH (uncompressed)" ∧
          (classifyHeader h.val).isCompressed = false) ∧
      (31 ≤ h.val ∧ h.val ≤ 34 →
        (classifyHeader h.val).addrType = "P2PKH (compressed)" ∧
          (classifyHeader h.val).isCompressed = true) ∧
      (35 ≤ h.val ∧ h.val ≤ 38 →
        (classifyHeader h.val).addrType = "P2SH-P2WPKH (SegWit over P2SH)" ∧
          (classifyHeader h.val).isCompressed = true) ∧
      (39 ≤ h.val ∧ h.val ≤ 42 →
        (classifyHeader h.val).addrType = "P2WPKH (native SegWit)" ∧
          (classifyHeader h.val).isCompressed = true) ∧
      (h.val < 27 ∨ 42 < h.val →
        (classifyHeader h.val).addrType = "Unknown") ∧
      (classifyHeader h.val).recID = h.val % 4 := by
  decide

/-- Claim C5 witness: the classification theorem instantiated at the
concrete header bytes 27 (uncompressed P2PKH) and 43 (out of range). -/
theorem classifyHeader_spec_witness :
    (classifyHeader 27).addrType = "P2PKH (uncompressed)" ∧
      (classifyHeader 43).addrType = "Unknown" :=
  ⟨((classifyHeader_spec 27).1 (by decide)).1,
   (classifyHeader_spec 43).2.2.2.2.1 (by decide)⟩

/-- Claim C9: both public-key entry points reject a nil public key with
the plain error `"empty public key"` and `valid = false`, for every
message and signature (including empty or undecodable ones) and
independently of every cryptographic collaborator — so no decoding,
recovery or derivation is ever consulted. -/
theorem nil_pubkey_rejected (co : Crypto) (lvl : Nat)
    (message signatureBase64 : String) (params : ChainParams) :
    (VerifyBip137SignatureWithPubKey co lvl none message signatureBase64).1 =
      (false, some (.plain "empty public key")) ∧
      (VerifyBip137SignatureWithPubKeyAndParams co lvl none message
          signatureBase64 params).1 =
        (false, some (.plain "empty public key")) :=
  ⟨rfl, rfl⟩

/-- Claim C8: for every fixed input, the `(bool, error)` outcome of each
verification entry point is identical under any two log levels; the
configured level only selects which log lines are emitted, never the
verdict. -/
theorem outcome_independent_of_log_level (co : Crypto) (lvl lvl' : Nat)
    (address message signatureBase64 : String) (params : ChainParams)
    (pubKey : Option PublicKey) (pk : PublicKey) (winner : RaceWinner)
    (ctxErr : GoError) (msg : SignedMessage) :
    (VerifyBip137SignatureWithParams co lvl address message signatureBase64
        params).1 =
      (VerifyBip137SignatureWithParams co lvl' address message signatureBase64
        params).1 ∧
      (VerifyBip137Signature co lvl address message signatureBase64).1 =
        (VerifyBip137Signature co lvl' address message signatureBase64).1 ∧
      (VerifyBip137SignatureWithPubKey co lvl pubKey message
          signatureBase64).1 =
        (VerifyBip137SignatureWithPubKey co lvl' pubKey message
          signatureBase64).1 ∧
      (VerifyBip137SignatureWithPubKeyAndParams co lvl pubKey message
          signatureBase64 params).1 =
        (VerifyBip137SignatureWithPubKeyAndParams co lvl' pubKey message
          signatureBase64 params).1 ∧
      (EnhancedVerifyBip137SignatureWithPubKey co lvl pk message
          signatureBase64).1 =
        (EnhancedVerifyBip137SignatureWithPubKey co lvl' pk message
          signatureBase64).1 ∧
      (VerifyBip137SignatureWithContext co lvl winner ctxErr msg).1 =
        (VerifyBip137SignatureWithContext co lvl' winner ctxErr msg).1 :=
  ⟨rfl, rfl, rfl, rfl, rfl, rfl⟩

/-- Claim C6 counterexample: the claim asserts that for every address
and signature, a call with an empty message returns `EmptyMessage`; at
the concrete input with address and message both empty it instead
returns `EmptyAddress`, because the address check runs first. -/
theorem empty_fields_claim_counterexample :
    (VerifyBip137SignatureWithParams trivialCrypto 2 "" "" "SGVsbG8="
        mainnetParams).1 = (false, some .errEmptyAddress) ∧
      (VerifyBip137SignatureWithParams trivialCrypto 2 "" "" "SGVsbG8="
          mainnetParams).1 ≠ (false, some .errEmptyMessage) := by
  exact ⟨rfl, by decide⟩

/-- Claim C6 (amended): an empty address always yields
`(false, EmptyAddress)`; an empty message yields `(false, EmptyMessage)`
provided the address is non-empty; an empty signature yields
`(false, EmptySignature)` provided address and message are non-empty —
each independently of every cryptographic collaborator, hence before
base64 decoding or any verification step. -/
theorem empty_field_errors (co : Crypto) (lvl : Nat)
    (address message signatureBase64 : String) (params : ChainParams) :
    (VerifyBip137SignatureWithParams co lvl "" message signatureBase64
        params).1 = (false, some .errEmptyAddress) ∧
      (address ≠ "" →
        (VerifyBip137SignatureWithParams co lvl address "" signatureBase64
            params).1 = (false, some .errEmptyMessage)) ∧
      (address ≠ "" → message ≠ "" →
        (VerifyBip137SignatureWithParams co lvl address message ""
            params).1 = (false, some .errEmptySignature)) := by
  refine ⟨rfl, fun ha => ?_, fun ha hm => ?_⟩
  · show verifyWithParamsCore co address "" signatureBase64 params = _
    simp [verifyWithParamsCore, ha]
  · show verifyWithParamsCore co address message "" params = _
    simp [verifyWithParamsCore, ha, hm]

/-- Claim C6 witness: the amended theorem applied at non-empty
remaining fields. -/
theorem empty_field_errors_witness :
    (VerifyBip137SignatureWithParams trivialCrypto 2 "a" "" "s"
        mainnetParams).1 = (false, some .errEmptyMessage) ∧
      (VerifyBip137SignatureWithParams trivialCrypto 2 "a" "m" ""
          mainnetParams).1 = (false, some .errEmptySignature) :=
  ⟨(empty_field_errors trivialCrypto 2 "a" "m" "s" mainnetParams).2.1
      (by decide),
   (empty_field_errors trivialCrypto 2 "a" "m" "s" mainnetParams).2.2
      (by decide) (by decide)⟩

/-- Claim C10: input validation checks the address first, then the
message, then the signature, so with several empty fields the error is
the one for the earliest empty field in that order — independently of
the collaborators and the log level. -/
theorem empty_checks_ordered (co : Crypto) (lvl : Nat)
    (address message signatureBase64 : String) (params : ChainParams) :
    (address = "" →
      (VerifyBip137SignatureWithParams co lvl address message signatureBase64
          params).1 = (false, some .errEmptyAddress)) ∧
      (address ≠ "" → message = "" →
        (VerifyBip137SignatureWithParams co lvl address message
            signatureBase64 params).1 = (false, some .errEmptyMessage)) ∧
      (address ≠ "" → message ≠ "" → signatureBase64 = "" →
        (VerifyBip137SignatureWithParams co lvl address message
            signatureBase64 params).1 = (false, some .errEmptySignature)) := by
  refine ⟨fun ha => ?_, fun ha hm => ?_, fun ha hm hs => ?_⟩
  · show verifyWithParamsCore co address message signatureBase64 params = _
    simp [verifyWithParamsCore, ha]
  · show verifyWithParamsCore co address message signatureBase64 params = _
    simp [verifyWithParamsCore, ha, hm]
  · show verifyWithParamsCore co address message signatureBase64 params = _
    simp [verifyWithParamsCore, ha, hm, hs]

/-- Claim C10 witness: all three earliest-empty-field cases at concrete
inputs — all fields empty gives `EmptyAddress`, empty message and
signature with a non-empty address gives `EmptyMessage`, and only the
signature empty gives `EmptySignature`. -/
theorem empty_checks_ordered_witness :
    (VerifyBip137SignatureWithParams trivialCrypto 2 "" "" ""
        mainnetParams).1 = (false, some .errEmptyAddress) ∧
      (VerifyBip137SignatureWithParams trivialCrypto 2 "b" "" ""
          mainnetParams).1 = (false, some .errEmptyMessage) ∧
      (VerifyBip137SignatureWithParams trivialCrypto 2 "b" "n" ""
          mainnetParams).1 = (false, some .errEmptySignature) :=
  ⟨(empty_checks_ordered trivialCrypto 2 "" "" "" mainnetParams).1 rfl,
   (empty_checks_ordered trivialCrypto 2 "b" "" "" mainnetParams).2.1
      (by decide) rfl,
   (empty_checks_ordered trivialCrypto 2 "b" "n" "" mainnetParams).2.2
      (by decide) (by decide) rfl⟩

/-- Claim C3 counterexample: the claim asserts a `MalformedSignature`
error for every valid-base64 payload whose length is not 65; the
signature string `"\n"` is non-empty and decodes (newlines are ignored)
to the zero-length payload, for which verification fails with the
`EmptySignature` error instead — and that error does not unwrap to a
malformed-length error. -/
theorem malformed_length_claim_counterexample :
    (VerifyBip137SignatureWithParams trivialCrypto 2 "addr" "msg" "\n"
        mainnetParams).1 =
      (false, some (.wrap "signature verification error"
        .errEmptySignature)) ∧
      (GoError.wrap "signature verification error"
            GoError.errEmptySignature).unwrapsTo
          (GoError.errMalformedSignature 0) = false := by
  exact ⟨rfl, rfl⟩

/-- Claim C3 (amended): for every non-empty address, message and
signature string decoding as valid base64 to a payload whose length is
neither 0 nor 65, verification fails with the `MalformedSignature`
(wrong decoded length) typed error, wrapped as
`"signature verification error: %w"` — independently of the recovery
and derivation collaborators, hence before any recovery or address
comparison; a zero-length payload fails with `EmptySignature` instead
(see the counterexample). -/
theorem malformed_length_rejected (co : Crypto) (lvl : Nat)
    (address message signatureBase64 : String) (params : ChainParams)
    (bs : List Nat) (ha : address ≠ "") (hm : message ≠ "")
    (hs : signatureBase64 ≠ "")
    (hdec : base64Decode signatureBase64 = some bs)
    (hne : bs.length ≠ 0) (h65 : bs.length ≠ 65) :
    (VerifyBip137SignatureWithParams co lvl address message signatureBase64
        params).1 =
      (false, some (.wrap "signature verification error"
        (.errMalformedSignature bs.length))) := by
  show verifyWithParamsCore co address message signatureBase64 params = _
  simp [verifyWithParamsCore, verifyWithChain, ha, hm, hs, hdec, hne, h65]

/-- Claim C3 witness: the signature `"AAAA"` decodes to the 3-byte
payload `[0, 0, 0]`, and verification fails with the wrapped
malformed-length error carrying length 3. -/
theorem malformed_length_rejected_witness :
    (VerifyBip137SignatureWithParams trivialCrypto 2 "addr" "msg" "AAAA"
        mainnetParams).1 =
      (false, some (.wrap "signature verification error"
        (.errMalformedSignature 3))) :=
  malformed_length_rejected trivialCrypto 2 "addr" "msg" "AAAA"
    mainnetParams [0, 0, 0] (by decide) (by decide) (by decide) (by decide)
    (by decide) (by decide)

/-- Claim C7: every call of the address-based verifier returns either a
boolean verdict with a nil error or a typed error with `false` — never a
`true` verdict together with an error; and when recovery and derivation
succeed but the derived address differs from the claimed one, the
mismatch comes back as `(false, nil)`, not as an error. -/
theorem verdict_xor_error (co : Crypto) (lvl : Nat)
    (address message signatureBase64 : String) (params : ChainParams) :
    ((VerifyBip137SignatureWithParams co lvl address message signatureBase64
          params).1.2 = none ∨
      (VerifyBip137SignatureWithParams co lvl address message signatureBase64
          params).1.1 = false) ∧
      (∀ (bs : List Nat) (pk : PublicKey) (derived : String),
        address ≠ "" → message ≠ "" → signatureBase64 ≠ "" →
        base64Decode signatureBase64 = some bs → bs.length = 65 →
        co.recover (co.hashMessage message)
            (classifyHeader (bs.headD 0)).recID ((bs.drop 1).take 32)
            (bs.drop 33) = some pk →
        deriveAddressChecked co pk (classifyHeader (bs.headD 0)).addrType
            (classifyHeader (bs.headD 0)).isCompressed params =
          .ok derived →
        derived ≠ address →
        (VerifyBip137SignatureWithParams co lvl address message
            signatureBase64 params).1 = (false, none)) := by
  constructor
  · show (verifyWithParamsCore co address message signatureBase64 params).2 =
        none ∨
      (verifyWithParamsCore co address message signatureBase64 params).1 =
        false
    unfold verifyWithParamsCore
    split
    · exact Or.inr rfl
    split
    · exact Or.inr rfl
    split
    · exact Or.inr rfl
    split
    · exact Or.inr rfl
    split
    · exact Or.inr rfl
    · exact Or.inl rfl
  · intro bs pk derived ha hm hs hdec h65 hrec hder hmis
    show verifyWithParamsCore co address message signatureBase64 params = _
    simp only [List.drop_one, List.headD_eq_head?] at hrec hder
    simp [verifyWithParamsCore, verifyWithChain, ha, hm, hs, hdec, h65,
      hrec, hder, hmis]

/-- Claim C7 witness: with collaborators that recover `pkA` and derive
the address `"LIB-DERIVED"`, verifying the 65-byte signature `sig65`
against the different claimed address `"addr"` yields the mismatch
outcome `(false, nil)` — no error. -/
theorem verdict_xor_error_witness :
    (VerifyBip137SignatureWithParams directHitCrypto 2 "addr" "m" sig65
        mainnetParams).1 = (false, none) :=
  (verdict_xor_error directHitCrypto 2 "addr" "m" sig65 mainnetParams).2
    (31 :: List.replicate 64 0) pkA "LIB-DERIVED" (by decide) (by decide)
    (by decide) (by decide) (by decide) rfl rfl (by decide)

/-- Claim C2 counterexample: with collaborators whose recovery returns
exactly the supplied key `pkA` (so a direct serialized-form comparison
succeeds, as the enhanced routine shows by returning `(true, nil)`),
`VerifyBip137SignatureWithPubKeyAndParams` still returns `(false, nil)`
on the same unambiguous compressed-P2PKH signature: its only path
derives an address from the supplied key and compares addresses, so it
neither performs the claimed direct comparison nor skips address
derivation. -/
theorem pubkey_direct_claim_counterexample :
    (EnhancedVerifyBip137SignatureWithPubKey directHitCrypto 2 pkA "m"
        sig65).1 = (true, none) ∧
      (VerifyBip137SignatureWithPubKeyAndParams directHitCrypto 2 (some pkA)
          "m" sig65 mainnetParams).1 = (false, none) := by
  exact ⟨by decide, by decide⟩

/-- Claim C2 (amended): `VerifyBip137SignatureWithPubKey` with a
non-nil key delegates to the enhanced routine; the enhanced routine
(modelled from the spec, its definition not being under src/) compares
the recovered key to the supplied key directly in the serialized form
picked by the classification's compressed flag, and only on an
ambiguous (`Unknown`) classification does it fall back — exactly once —
to derived-address verification, returning the fallback's outcome; but
`VerifyBip137SignatureWithPubKeyAndParams` never compares keys
directly: it always derives a P2PKH address from the supplied key and
returns the outcome of address-based verification with it. -/
theorem pubkey_paths_characterized (co : Crypto) (lvl : Nat)
    (pk : PublicKey) (message signatureBase64 : String)
    (params : ChainParams) (bs : List Nat) (hm : message ≠ "")
    (hs : signatureBase64 ≠ "")
    (hdec : base64Decode signatureBase64 = some bs)
    (h65 : bs.length = 65) :
    (VerifyBip137SignatureWithPubKey co lvl (some pk) message
          signatureBase64).1 =
        (EnhancedVerifyBip137SignatureWithPubKey co lvl pk message
          signatureBase64).1 ∧
      (VerifyBip137SignatureWithPubKeyAndParams co lvl (some pk) message
            signatureBase64 params).1 =
          (match co.newAddressPubKeyHash (co.hash160 pk.compressedSer)
              params with
           | .error e =>
             (false, some (.wrap "failed to derive address from public key" e))
           | .ok derivedAddress =>
             verifyWithParamsCore co derivedAddress message signatureBase64
               params) ∧
      ((classifyHeader (bs.headD 0)).addrType = "Unknown" →
        (EnhancedVerifyBip137SignatureWithPubKey co lvl pk message
            signatureBase64).1 =
          enhancedFallbackCore co pk message signatureBase64) ∧
      ((classifyHeader (bs.headD 0)).addrType ≠ "Unknown" →
        (EnhancedVerifyBip137SignatureWithPubKey co lvl pk message
            signatureBase64).1 =
          (match co.recover (co.hashMessage message)
              (classifyHeader (bs.headD 0)).recID ((bs.drop 1).take 32)
              (bs.drop 33) with
           | none => (false, some .errRecoveryFailure)
           | some recovered =>
             ((if (classifyHeader (bs.headD 0)).isCompressed then
                 recovered.compressedSer
               else recovered.uncompressedSer) ==
                (if (classifyHeader (bs.headD 0)).isCompressed then
                  pk.compressedSer
                else pk.uncompressedSer), none))) := by
  refine ⟨rfl, ?_, fun hu => ?_, fun hu => ?_⟩
  · show verifyWithPubKeyAndParamsCore co (some pk) message signatureBase64
        params = _
    simp [verifyWithPubKeyAndParamsCore, hm, hs, hdec]
  · show enhancedVerifyCore co pk message signatureBase64 = _
    simp only [List.headD_eq_head?] at hu
    simp [enhancedVerifyCore, hm, hs, hdec, h65, hu]
  · show enhancedVerifyCore co pk message signatureBase64 = _
    simp only [List.drop_one, List.headD_eq_head?] at hu ⊢
    simp [enhancedVerifyCore, hm, hs, hdec, h65, hu]

/-- Claim C2 witness: the characterization applied at the concrete
unambiguous signature `sig65`, giving the delegation equation of
`VerifyBip137SignatureWithPubKey`. -/
theorem pubkey_paths_characterized_witness :
    (VerifyBip137SignatureWithPubKey directHitCrypto 2 (some pkA) "m"
        sig65).1 =
      (EnhancedVerifyBip137SignatureWithPubKey directHitCrypto 2 pkA "m"
        sig65).1 :=
  (pubkey_paths_characterized directHitCrypto 2 pkA "m" sig65 mainnetParams
    (31 :: List.replicate 64 0) (by decide) (by decide) (by decide)
    (by decide)).1

/-- Claim C4 counterexample: when the context fires first because of an
explicit cancellation (`ctx.Err() = context.Canceled`), the code still
returns the `ErrVerificationTimeout` sentinel —
`fmt.Errorf("%w: %v", ErrVerificationTimeout, ctxErr)` — so the error
unwraps to the timeout error and not to any cancellation error; the
claimed distinct `Cancelled` outcome does not exist in the code. -/
theorem context_cancelled_claim_counterexample :
    (VerifyBip137SignatureWithContext trivialCrypto 2 .ctxDone .ctxCanceled
        ⟨"a", "m", "s"⟩).1 =
      (false, some (.wrapMsg .errVerificationTimeout "context canceled")) ∧
      (GoError.wrapMsg .errVerificationTimeout
            "context canceled").unwrapsTo .errVerificationTimeout = true ∧
      (GoError.wrapMsg .errVerificationTimeout
            "context canceled").unwrapsTo .ctxCanceled = false := by
  exact ⟨rfl, by decide, by decide⟩

/-- Claim C4 (amended): if the context's signal fires first the result
is `(false, err)` with `err` always the `ErrVerificationTimeout`
sentinel wrapping only the textual form of the context's reason
(deadline or cancellation alike); if the verification goroutine
completes first, a nil-error outcome is returned untouched while a
non-nil inner error is wrapped as `"signature verification error: %w"`;
exactly one of the two race branches produces the result. -/
theorem context_race_outcomes (co : Crypto) (lvl : Nat) (ctxErr : GoError)
    (msg : SignedMessage) :
    (VerifyBip137SignatureWithContext co lvl .ctxDone ctxErr msg).1 =
        (false, some (.wrapMsg .errVerificationTimeout ctxErr.text)) ∧
      (VerifyBip137SignatureWithContext co lvl .verifyDone ctxErr msg).1 =
        (match verifyWithChain co msg mainnetParams with
         | .error e => (false, some (.wrap "signature verification error" e))
         | .ok valid => (valid, none)) :=
  ⟨rfl, rfl⟩
